import Mathlib

/-!
# Task manager core: formal model and verification

A shallow embedding of the task-manager repository's core: the domain
model (users, tasks, audit events), the permission policy, the task
state machine, the orchestration service, and the HTTP boundary of
`src/app/api.py`.  The domain/policy/service modules are not present in
the repository snapshot (only their tests and the HTTP layer are), so
those definitions are modelled from the specification and pinned by the
repository's unit tests; `src/app/api.py` is embedded directly.
-/

namespace TaskMgr

/-- Account role, from `src/domain/user.py` (modelled from the spec:
`Role` ∈ {USER, MANAGER}; the module is absent from the snapshot). -/
inductive Role where
  | USER
  | MANAGER
deriving DecidableEq

/-- Account status, from `src/domain/user.py` (modelled from the spec:
account `status` ∈ {ACTIVE, BLOCKED}). -/
inductive Status where
  | ACTIVE
  | BLOCKED
deriving DecidableEq

/-- Task status, from `src/domain/task.py` (modelled from the spec:
`status` ∈ {NEW, IN_PROGRESS, DONE, CANCELED}). -/
inductive TaskStatus where
  | NEW
  | IN_PROGRESS
  | DONE
  | CANCELED
deriving DecidableEq

/-- Task priority, from `src/domain/task.py` (modelled from the spec:
`priority` ∈ {LOW, NORMAL, HIGH}). -/
inductive Priority where
  | LOW
  | NORMAL
  | HIGH
deriving DecidableEq

/-- Audit event type, from `src/domain/event.py` (modelled from the spec:
`type` ∈ {CREATED, ASSIGNED, STATUS_CHANGED, UPDATED, DELETED}). -/
inductive EventType where
  | CREATED
  | ASSIGNED
  | STATUS_CHANGED
  | UPDATED
  | DELETED
deriving DecidableEq

/-- The canonical (enumeration-member) name of a task status, as used by
symbolic resolution and event metadata. -/
def TaskStatus.canonicalName : TaskStatus → String
  | .NEW => "NEW"
  | .IN_PROGRESS => "IN_PROGRESS"
  | .DONE => "DONE"
  | .CANCELED => "CANCELED"

/-- The canonical name of a priority. -/
def Priority.canonicalName : Priority → String
  | .LOW => "LOW"
  | .NORMAL => "NORMAL"
  | .HIGH => "HIGH"

/-- The canonical name of a role. -/
def Role.canonicalName : Role → String
  | .USER => "USER"
  | .MANAGER => "MANAGER"

/-- The canonical name of an account status. -/
def Status.canonicalName : Status → String
  | .ACTIVE => "ACTIVE"
  | .BLOCKED => "BLOCKED"

/-- User entity, from `src/domain/user.py` (modelled from the spec). -/
structure User where
  id : String
  email : String
  role : Role
  status : Status
deriving DecidableEq

/-- Task entity, from `src/domain/task.py` (modelled from the spec:
`due_date` is an opaque optional timestamp, represented as a `Nat`). -/
structure Task where
  id : String
  title : String
  description : String
  status : TaskStatus
  priority : Priority
  owner_id : String
  assignee_id : Option String
  due_date : Option Nat
  is_deleted : Bool
deriving DecidableEq

/-- Audit event, from `src/domain/event.py` (modelled from the spec:
`meta` is a string-keyed mapping whose values may be absent/null,
represented as an association list). -/
structure TaskEvent where
  id : String
  task_id : String
  timestamp : Nat
  type : EventType
  meta : List (String × Option String)
deriving DecidableEq

/-! ## Symbolic name resolution (spec §6, §9)

Symbolic inputs are matched case-insensitively against the
enumeration's canonical names: the boundary upper-cases the input and
performs an exact-name lookup (as `Enum[s.upper()]` does in
`src/app/api.py`). -/

/-- Upper-case every character of a string (Python `str.upper()` on the
ASCII names used here), written over the character list so that it
evaluates by reduction. -/
def upperName (s : String) : String := String.mk (s.data.map Char.toUpper)

/-- Exact-name lookup for `Priority` (Python `Priority[s]`). -/
def priorityOfName (s : String) : Option Priority :=
  if s = "LOW" then some .LOW
  else if s = "NORMAL" then some .NORMAL
  else if s = "HIGH" then some .HIGH
  else none

/-- Exact-name lookup for `TaskStatus` (Python `TaskStatus[s]`). -/
def taskStatusOfName (s : String) : Option TaskStatus :=
  if s = "NEW" then some .NEW
  else if s = "IN_PROGRESS" then some .IN_PROGRESS
  else if s = "DONE" then some .DONE
  else if s = "CANCELED" then some .CANCELED
  else none

/-- Exact-name lookup for `Role` (Python `Role[s]`). -/
def roleOfName (s : String) : Option Role :=
  if s = "USER" then some .USER
  else if s = "MANAGER" then some .MANAGER
  else none

/-- Exact-name lookup for account `Status` (Python `Status[s]`). -/
def statusOfName (s : String) : Option Status :=
  if s = "ACTIVE" then some .ACTIVE
  else if s = "BLOCKED" then some .BLOCKED
  else none

/-- Case-insensitive resolution of a priority name (modelled from the
spec: upper-case then exact match; the resolving module is absent). -/
def resolvePriority (s : String) : Option Priority := priorityOfName (upperName s)

/-- Case-insensitive resolution of a task-status name. -/
def resolveTaskStatus (s : String) : Option TaskStatus := taskStatusOfName (upperName s)

/-- Case-insensitive resolution of a role name. -/
def resolveRole (s : String) : Option Role := roleOfName (upperName s)

/-- Case-insensitive resolution of an account-status name. -/
def resolveStatus (s : String) : Option Status := statusOfName (upperName s)

/-! ## Permission policy (spec §4.1)

Modelled from the spec: `src/domain/policies.py` (`PermissionPolicy`)
is absent from the snapshot; each predicate below follows the spec's
sentence for it and is pinned by `src/tests/unit/domain/test_policies.py`. -/

/-- Modelled from the spec: `can_create_task(actor)` → true iff
`actor.status == ACTIVE`. -/
def can_create_task (actor : User) : Bool :=
  decide (actor.status = Status.ACTIVE)

/-- Modelled from the spec: `can_assign(actor, task, assignee)` → true iff
the assignee is ACTIVE and the actor is a MANAGER or the task's owner. -/
def can_assign (actor : User) (task : Task) (assignee : User) : Bool :=
  decide (assignee.status = Status.ACTIVE) &&
    (decide (actor.role = Role.MANAGER) || decide (actor.id = task.owner_id))

/-- Modelled from the spec: `can_change_status(actor, task, new_status)` →
true iff the actor is a MANAGER, or is ACTIVE and the task's assignee.
The spec's §4.1 sentence stops there, but the repository's service
tests pin one more allowed case: an ACTIVE owner of a task that has no
assignee passes the check (`test_change_status_invalid_transition_raises`
reaches the transition check as the creator of an unassigned task and
gets a `ValueError`, while the unrelated actor of
`test_change_status_forbidden_actor` gets a `PermissionError` on the
same illegal transition, and the owner of an *assigned* task in
`test_change_status_done_forbidden_for_owner_not_assignee` is still
denied).  That extra disjunct is included here. -/
def can_change_status (actor : User) (task : Task) (_target : TaskStatus) : Bool :=
  decide (actor.role = Role.MANAGER) ||
    (decide (actor.status = Status.ACTIVE) &&
      (decide (task.assignee_id = some actor.id) ||
        (decide (task.assignee_id = none) && decide (actor.id = task.owner_id))))

/-- Modelled from the spec: `can_update(actor, task)` → true iff the actor
is a MANAGER, or is ACTIVE, owner or assignee, and the task is not DONE. -/
def can_update (actor : User) (task : Task) : Bool :=
  decide (actor.role = Role.MANAGER) ||
    (decide (actor.status = Status.ACTIVE) &&
      (decide (actor.id = task.owner_id) || decide (task.assignee_id = some actor.id)) &&
      decide (task.status ≠ TaskStatus.DONE))

/-- Modelled from the spec: `can_delete(actor, task)` → true iff the actor
is a MANAGER, or is the task's owner and the task is not DONE. -/
def can_delete (actor : User) (task : Task) : Bool :=
  decide (actor.role = Role.MANAGER) ||
    (decide (actor.id = task.owner_id) && decide (task.status ≠ TaskStatus.DONE))

/-! ## Task state machine (spec §4.2) -/

/-- Modelled from the spec: the legal transition graph for non-manager
actors performing `change_status`: NEW → IN_PROGRESS and
IN_PROGRESS → DONE only. -/
def allowed_transition (current target : TaskStatus) : Bool :=
  match current, target with
  | .NEW, .IN_PROGRESS => true
  | .IN_PROGRESS, .DONE => true
  | _, _ => false

/-! ## Repositories and service state (spec §6)

The in-memory repositories (`src/repo/memory_repo.py`, absent from the
snapshot) are key-addressed stores; users and tasks are looked up by
`id`, events are an append-only log filtered by `task_id`.  The id
generator and clock collaborators are folded into the state (`nextId`
mirrors the test double which yields `id-1`, `id-2`, …). -/

structure ServiceState where
  users : List User
  tasks : List Task
  events : List TaskEvent
  nextId : Nat
  now : Nat
deriving DecidableEq

/-- `UserRepo.get`: first user with the given id, if any. -/
def getUser (st : ServiceState) (uid : String) : Option User :=
  st.users.find? (fun u => decide (u.id = uid))

/-- `TaskRepo.get`: first task with the given id, if any. -/
def getTask (st : ServiceState) (tid : String) : Option Task :=
  st.tasks.find? (fun t => decide (t.id = tid))

/-- `EventRepo.list_for_task`: the task's events in append order. -/
def eventsForTask (st : ServiceState) (tid : String) : List TaskEvent :=
  st.events.filter (fun e => decide (e.task_id = tid))

/-- `TaskRepo.update`: replace the stored task with the same id. -/
def updateTask (st : ServiceState) (task : Task) : ServiceState :=
  { st with tasks := st.tasks.map (fun t => if t.id = task.id then task else t) }

/-- `EventRepo.append`: append one event to the log. -/
def appendEvent (st : ServiceState) (e : TaskEvent) : ServiceState :=
  { st with events := st.events ++ [e] }

/-- `IdGenerator.new_id`: a fresh id, threading the counter. -/
def freshId (st : ServiceState) : String × ServiceState :=
  ("id-" ++ toString (st.nextId + 1), { st with nextId := st.nextId + 1 })

/-! ## Failure kinds (spec §7)

The core raises Python `ValueError` for validation/not-found conditions
and `PermissionError` for authorization denials; anything else is an
unexpected fault.  `src/app/api.py` maps these to HTTP responses. -/

inductive Err where
  | validation (msg : String)
  | permission (msg : String)
  | unexpected (msg : String)
deriving DecidableEq

/-- Whether a failure is the validation/not-found kind. -/
def Err.isValidation : Err → Bool
  | .validation _ => true
  | _ => false

/-- Whether a failure is the permission kind. -/
def Err.isPermission : Err → Bool
  | .permission _ => true
  | _ => false

/-- Whether a failure is the unexpected (unclassified) kind. -/
def Err.isUnexpected : Err → Bool
  | .unexpected _ => true
  | _ => false

/-- Whether an outcome is a failure of the validation/not-found kind. -/
def failsWithValidation {α : Type} : Except Err α → Bool
  | .error e => e.isValidation
  | .ok _ => false

/-- Whether an outcome is a failure of the permission kind. -/
def failsWithPermission {α : Type} : Except Err α → Bool
  | .error e => e.isPermission
  | .ok _ => false

/-- Whether an outcome succeeded. -/
def isOkB {α : Type} : Except Err α → Bool
  | .ok _ => true
  | .error _ => false

/-- Membership in a successful list outcome (a failure contains
nothing). -/
def okContains {α : Type} (r : Except Err (List α)) (x : α) : Prop :=
  match r with
  | .ok l => x ∈ l
  | .error _ => False

/-! ## Task service (spec §4.3)

Modelled from the spec: `src/serwis/task_service.py` (`TaskService`) is
absent from the snapshot; each operation below follows §4.3's sentence
for it and is pinned by `src/tests/unit/serwis/test_task_service.py`
(in particular the exact error strings, the order of not-found checks,
and — against §4.3's opening sentence — `create_task` raising a
permission condition for a missing actor, per
`test_create_task_actor_missing_forbidden`).  Each operation returns
its result or failure together with the resulting state; a failure
leaves the state unchanged, since every operation performs all reads
and checks before its single write and event append. -/

/-- Modelled from the spec: `create_task(actor_id, title, description,
priority)` — validate title and priority, require `can_create_task`
(a missing actor is denied, per the unit tests), then persist a NEW
task owned by the actor and append a CREATED event. -/
def create_task (st : ServiceState) (actor_id title description priority : String) :
    Except Err Task × ServiceState :=
  if title = "" then (.error (.validation ("Invalid title")), st)
  else
    match resolvePriority priority with
    | none => (.error (.validation ("Unknown priority")), st)
    | some prio =>
      match getUser st actor_id with
      | none => (.error (.permission ("User cannot create tasks")), st)
      | some actor =>
        if can_create_task actor = false then
          (.error (.permission ("User cannot create tasks")), st)
        else
          let p1 := freshId st
          let task : Task :=
            { id := p1.1, title := title, description := description,
              status := .NEW, priority := prio, owner_id := actor_id,
              assignee_id := none, due_date := none, is_deleted := false }
          let st2 := { p1.2 with tasks := p1.2.tasks ++ [task] }
          let p2 := freshId st2
          let ev : TaskEvent :=
            { id := p2.1, task_id := task.id, timestamp := p2.2.now,
              type := .CREATED, meta := [] }
          (.ok task, appendEvent p2.2 ev)

/-- Modelled from the spec: `assign_task(actor_id, task_id, assignee_id)`
— the task is loaded first (Task not found), then actor and assignee
together (Actor or assignee not found); requires `can_assign`; on
success records the previous assignee as `meta.from` and the new one as
`meta.to` in an ASSIGNED event. -/
def assign_task (st : ServiceState) (actor_id task_id assignee_id : String) :
    Except Err Task × ServiceState :=
  match getTask st task_id with
  | none => (.error (.validation ("Task not found")), st)
  | some task =>
    match getUser st actor_id, getUser st assignee_id with
    | some actor, some assignee =>
      if can_assign actor task assignee = false then
        (.error (.permission ("User cannot assign this task")), st)
      else
        let task2 := { task with assignee_id := some assignee_id }
        let st1 := updateTask st task2
        let p := freshId st1
        let ev : TaskEvent :=
          { id := p.1, task_id := task_id, timestamp := p.2.now,
            type := .ASSIGNED,
            meta := [("from", task.assignee_id), ("to", some assignee_id)] }
        (.ok task2, appendEvent p.2 ev)
    | _, _ => (.error (.validation ("Actor or assignee not found")), st)

/-- Modelled from the spec: `change_status(actor_id, task_id, new_status)`
— task first (Task not found), then actor (Actor not found), then the
symbolic status (Unknown status); requires `can_change_status`; a
non-manager's transition must be in the legal graph (else an
invalid-transition validation error); on success records old and new
status in a STATUS_CHANGED event.  (The exact invalid-transition
message is unpinned by the tests; the constant used here stands for
it.) -/
def change_status (st : ServiceState) (actor_id task_id new_status : String) :
    Except Err Task × ServiceState :=
  match getTask st task_id with
  | none => (.error (.validation ("Task not found")), st)
  | some task =>
    match getUser st actor_id with
    | none => (.error (.validation ("Actor not found")), st)
    | some actor =>
      match resolveTaskStatus new_status with
      | none => (.error (.validation ("Unknown status")), st)
      | some target =>
        if can_change_status actor task target = false then
          (.error (.permission ("User cannot change status for this task")), st)
        else if actor.role ≠ Role.MANAGER ∧ allowed_transition task.status target = false then
          (.error (.validation ("Invalid transition")), st)
        else
          let task2 := { task with status := target }
          let st1 := updateTask st task2
          let p := freshId st1
          let ev : TaskEvent :=
            { id := p.1, task_id := task_id, timestamp := p.2.now,
              type := .STATUS_CHANGED,
              meta := [("from", some task.status.canonicalName),
                       ("to", some target.canonicalName)] }
          (.ok task2, appendEvent p.2 ev)

/-- Resolve an optionally-supplied priority field of `update_task`
(Unknown priority when unresolvable, nothing when not supplied). -/
def resolvePriorityField (s : Option String) : Except Err (Option Priority) :=
  match s with
  | none => .ok none
  | some v =>
    match resolvePriority v with
    | none => .error (.validation ("Unknown priority"))
    | some pr => .ok (some pr)

/-- Modelled from the spec: `update_task(actor_id, task_id, title,
description, priority)` — actor and task resolved together (Actor or
task not found); requires `can_update`; validates any supplied title
(non-empty) and priority (resolvable); if no supplied field differs
from the current value the task is returned unchanged and no event is
appended, otherwise the changed fields are applied and one UPDATED
event is appended. -/
def update_task (st : ServiceState) (actor_id task_id : String)
    (title description priority : Option String) :
    Except Err Task × ServiceState :=
  match getUser st actor_id, getTask st task_id with
  | some actor, some task =>
    if can_update actor task = false then
      (.error (.permission ("User cannot update this task")), st)
    else if title = some ("") then
      (.error (.validation ("Invalid title")), st)
    else
      match resolvePriorityField priority with
      | .error e => (.error e, st)
      | .ok oprio =>
        let newTitle := title.getD task.title
        let newDescr := description.getD task.description
        let newPrio := oprio.getD task.priority
        let changed : List String :=
          (if newTitle ≠ task.title then ["title"] else []) ++
          (if newDescr ≠ task.description then ["description"] else []) ++
          (if newPrio ≠ task.priority then ["priority"] else [])
        if changed = [] then (.ok task, st)
        else
          let task2 := { task with title := newTitle, description := newDescr,
                                   priority := newPrio }
          let st1 := updateTask st task2
          let p := freshId st1
          let ev : TaskEvent :=
            { id := p.1, task_id := task_id, timestamp := p.2.now,
              type := .UPDATED,
              meta := [("fields", some (String.intercalate (",") changed))] }
          (.ok task2, appendEvent p.2 ev)
  | _, _ => (.error (.validation ("Actor or task not found")), st)

/-- Modelled from the spec: `delete_task(actor_id, task_id)` — actor and
task resolved together (Actor or task not found); requires
`can_delete`; if already deleted the call is idempotent (task returned
unchanged, no second DELETED event); otherwise sets `is_deleted`,
persists, and appends one DELETED event, leaving `status` untouched. -/
def delete_task (st : ServiceState) (actor_id task_id : String) :
    Except Err Task × ServiceState :=
  match getUser st actor_id, getTask st task_id with
  | some actor, some task =>
    if can_delete actor task = false then
      (.error (.permission ("Only owner can delete this task")), st)
    else if task.is_deleted then (.ok task, st)
    else
      let task2 := { task with is_deleted := true }
      let st1 := updateTask st task2
      let p := freshId st1
      let ev : TaskEvent :=
        { id := p.1, task_id := task_id, timestamp := p.2.now,
          type := .DELETED, meta := [] }
      (.ok task2, appendEvent p.2 ev)
  | _, _ => (.error (.validation ("Actor or task not found")), st)

/-- Resolve an optional status filter (Unknown status filter). -/
def resolveStatusFilter (s : Option String) : Except Err (Option TaskStatus) :=
  match s with
  | none => .ok none
  | some v =>
    match resolveTaskStatus v with
    | none => .error (.validation ("Unknown status filter"))
    | some ts => .ok (some ts)

/-- Resolve an optional priority filter (Unknown priority filter). -/
def resolvePriorityFilter (s : Option String) : Except Err (Option Priority) :=
  match s with
  | none => .ok none
  | some v =>
    match resolvePriority v with
    | none => .error (.validation ("Unknown priority filter"))
    | some pr => .ok (some pr)

/-- Whether a task is visible to an actor: managers see all tasks,
others only tasks they own or are assigned. -/
def visibleTo (actor : User) (t : Task) : Bool :=
  decide (actor.role = Role.MANAGER) ||
    decide (t.owner_id = actor.id) || decide (t.assignee_id = some actor.id)

/-- Whether a task matches the resolved exact-match filters. -/
def matchesFilters (sf : Option TaskStatus) (pf : Option Priority) (t : Task) : Bool :=
  (match sf with | none => true | some s => decide (t.status = s)) &&
  (match pf with | none => true | some p => decide (t.priority = p))

/-- Modelled from the spec: `list_tasks(actor_id, status, priority)` —
actor resolved (Actor not found); filters resolved symbolically; the
visibility rule is applied first and the filters after it as an
exact-match conjunction. -/
def list_tasks (st : ServiceState) (actor_id : String) (status priority : Option String) :
    Except Err (List Task) × ServiceState :=
  match getUser st actor_id with
  | none => (.error (.validation ("Actor not found")), st)
  | some actor =>
    match resolveStatusFilter status with
    | .error e => (.error e, st)
    | .ok sf =>
      match resolvePriorityFilter priority with
      | .error e => (.error e, st)
      | .ok pf =>
        let visible := st.tasks.filter (visibleTo actor)
        (.ok (visible.filter (matchesFilters sf pf)), st)

/-- Modelled from the spec: `get_events(actor_id, task_id)` — actor and
task resolved together (Actor or task not found); requires the listing
visibility rule (manager, owner, or assignee), else a permission
condition; returns the task's events in append order.  (The exact
permission message is unpinned by the tests.) -/
def get_events (st : ServiceState) (actor_id task_id : String) :
    Except Err (List TaskEvent) × ServiceState :=
  match getUser st actor_id, getTask st task_id with
  | some actor, some task =>
    if visibleTo actor task then (.ok (eventsForTask st task_id), st)
    else (.error (.permission ("User cannot view this task")), st)
  | _, _ => (.error (.validation ("Actor or task not found")), st)

/-! ## HTTP boundary (`src/app/api.py`, present in the snapshot)

`_actor_id` demands the `X-Actor-Id` header (absent or empty rejected);
the Flask error handlers map `ValueError` → 400 with the error's
message, `PermissionError` → 403 with the message, and any other
exception → an opaque 500 "Internal Server Error".  Each task/event
route reads the actor header first, then parses its body and calls the
service.  Route functions return the service outcome with the new
state; a failure leaves the state unchanged. -/

/-- An HTTP status code and JSON `message` body. -/
structure HttpResponse where
  statusCode : Nat
  message : String
deriving DecidableEq

/-- The Flask error handlers of `create_app` (`src/app/api.py` lines
84–99): validation → 400, permission → 403, anything else → opaque
500. -/
def errorResponse : Err → HttpResponse
  | .validation m => { statusCode := 400, message := m }
  | .permission m => { statusCode := 403, message := m }
  | .unexpected _ => { statusCode := 500, message := "Internal Server Error" }

/-- `_actor_id` (`src/app/api.py` lines 43–47): the header value, or a
validation failure when the header is absent or empty. -/
def actorIdFromHeader (hdr : Option String) : Except Err String :=
  match hdr with
  | none => .error (.validation ("Missing X-Actor-Id header"))
  | some a =>
    if a = "" then .error (.validation ("Missing X-Actor-Id header"))
    else .ok a

/-- `POST /api/tasks`: header first, then body fields with their
defaults (`title` "", `description` "", `priority` "NORMAL"). -/
def route_create_task (st : ServiceState) (hdr : Option String)
    (title description priority : Option String) : Except Err Task × ServiceState :=
  match actorIdFromHeader hdr with
  | .error e => (.error e, st)
  | .ok aid =>
    create_task st aid (title.getD ("")) (description.getD ("")) (priority.getD ("NORMAL"))

/-- `PATCH /api/tasks/<task_id>`: header first, then the optional body
fields are passed through. -/
def route_update_task (st : ServiceState) (hdr : Option String) (task_id : String)
    (title description priority : Option String) : Except Err Task × ServiceState :=
  match actorIdFromHeader hdr with
  | .error e => (.error e, st)
  | .ok aid => update_task st aid task_id title description priority

/-- `POST /api/tasks/<task_id>/assign`: header first, then a missing or
empty `assignee_id` is rejected, then the service is called. -/
def route_assign_task (st : ServiceState) (hdr : Option String) (task_id : String)
    (assignee_id : Option String) : Except Err Task × ServiceState :=
  match actorIdFromHeader hdr with
  | .error e => (.error e, st)
  | .ok aid =>
    match assignee_id with
    | none => (.error (.validation ("Missing assignee_id")), st)
    | some sid =>
      if sid = "" then (.error (.validation ("Missing assignee_id")), st)
      else assign_task st aid task_id sid

/-- `POST /api/tasks/<task_id>/status`: header first, then a missing or
empty `new_status` is rejected, then the service is called. -/
def route_change_status (st : ServiceState) (hdr : Option String) (task_id : String)
    (new_status : Option String) : Except Err Task × ServiceState :=
  match actorIdFromHeader hdr with
  | .error e => (.error e, st)
  | .ok aid =>
    match new_status with
    | none => (.error (.validation ("Missing new_status")), st)
    | some ns =>
      if ns = "" then (.error (.validation ("Missing new_status")), st)
      else change_status st aid task_id ns

/-- `GET /api/tasks`: header first, then the query filters are passed
through. -/
def route_list_tasks (st : ServiceState) (hdr : Option String)
    (status priority : Option String) : Except Err (List Task) × ServiceState :=
  match actorIdFromHeader hdr with
  | .error e => (.error e, st)
  | .ok aid => list_tasks st aid status priority

/-- `DELETE /api/tasks/<task_id>`: header first, then the service. -/
def route_delete_task (st : ServiceState) (hdr : Option String) (task_id : String) :
    Except Err Task × ServiceState :=
  match actorIdFromHeader hdr with
  | .error e => (.error e, st)
  | .ok aid => delete_task st aid task_id

/-- `GET /api/tasks/<task_id>/events`: header first, then the service. -/
def route_get_events (st : ServiceState) (hdr : Option String) (task_id : String) :
    Except Err (List TaskEvent) × ServiceState :=
  match actorIdFromHeader hdr with
  | .error e => (.error e, st)
  | .ok aid => get_events st aid task_id

/-- `POST /api/users` (`src/app/api.py` lines 102–115): builds a `User`
from the JSON body; `id` and `email` are required, `role` defaults to
"USER" and `status` to "ACTIVE"; role and status are upper-cased and
looked up by exact enumeration name, and a `KeyError` — from a missing
required field or from an unresolvable upper-cased name — is re-raised
as the validation error `Missing field: <key>`. -/
def parse_user (uid email role status : Option String) : Except Err User :=
  match uid with
  | none => .error (.validation ("Missing field: 'id'"))
  | some i =>
    match email with
    | none => .error (.validation ("Missing field: 'email'"))
    | some e =>
      let rname := upperName (role.getD ("USER"))
      match roleOfName rname with
      | none => .error (.validation ("Missing field: '" ++ rname ++ "'"))
      | some r =>
        let sname := upperName (status.getD ("ACTIVE"))
        match statusOfName sname with
        | none => .error (.validation ("Missing field: '" ++ sname ++ "'"))
        | some s => .ok { id := i, email := e, role := r, status := s }

/-! ## Observations and fixtures -/

/-- Decidable equality of service outcomes, so that concrete runs can be
checked by `decide`. -/
instance decEqExcept {ε α : Type} [DecidableEq ε] [DecidableEq α] :
    DecidableEq (Except ε α) := fun a b =>
  match a, b with
  | .error x, .error y =>
    if h : x = y then .isTrue (by simp [h]) else .isFalse (by simp [h])
  | .error _, .ok _ => .isFalse (by simp)
  | .ok _, .error _ => .isFalse (by simp)
  | .ok x, .ok y =>
    if h : x = y then .isTrue (by simp [h]) else .isFalse (by simp [h])

/-- Number of DELETED events recorded for a task. -/
def countDeleted (st : ServiceState) (tid : String) : Nat :=
  (st.events.filter (fun e =>
    decide (e.task_id = tid) && decide (e.type = EventType.DELETED))).length

/-- Fixture: a user record for concrete instantiations. -/
def mkUser (i : String) (r : Role) (s : Status) : User :=
  { id := i, email := i ++ "@example.com", role := r, status := s }

/-- Fixture: an active manager. -/
def mgrUser : User := mkUser ("m1") .MANAGER .ACTIVE

/-- Fixture: an active regular user who owns the fixture task. -/
def ownerUser : User := mkUser ("o1") .USER .ACTIVE

/-- Fixture: an active regular user used as assignee. -/
def devUser : User := mkUser ("d1") .USER .ACTIVE

/-- Fixture: an initial state with the given users and tasks, an empty
event log, and the deterministic id/clock collaborators at zero. -/
def initState (us : List User) (ts : List Task) : ServiceState :=
  { users := us, tasks := ts, events := [], nextId := 0, now := 0 }

/-- Fixture: an unassigned NEW task owned by `o1`. -/
def taskUnassigned : Task :=
  { id := "t1", title := "T", description := "", status := .NEW, priority := .NORMAL,
    owner_id := "o1", assignee_id := none, due_date := none, is_deleted := false }

/-- Fixture: the same task assigned to `d1` and IN_PROGRESS. -/
def taskAssigned : Task :=
  { taskUnassigned with assignee_id := some ("d1"), status := .IN_PROGRESS }

/-- Fixture: the state holding the three fixture users and the
unassigned fixture task. -/
def stUnassigned : ServiceState :=
  initState [mgrUser, ownerUser, devUser] [taskUnassigned]

/-- Fixture: the state holding the three fixture users and the assigned
fixture task. -/
def stAssigned : ServiceState :=
  initState [mgrUser, ownerUser, devUser] [taskAssigned]

/-! ## Theorems -/

/-- C1 counterexample: for the active non-manager owner `o1` of the
unassigned fixture task, the policy check passes (refuting the claimed
"true iff manager or (active and assignee)"), and the service's
`change_status` for this owner-who-is-not-the-assignee fails with the
invalid-transition validation error, not a permission condition —
exactly the behaviour `test_change_status_invalid_transition_raises`
pins for the creator of an unassigned task. -/
theorem change_status_owner_unassigned_not_permission :
    can_change_status ownerUser taskUnassigned TaskStatus.DONE = true ∧
    change_status stUnassigned ("o1") ("t1") ("DONE")
      = (Except.error (Err.validation ("Invalid transition")), stUnassigned) ∧
    Err.isPermission (Err.validation ("Invalid transition")) = false := by
  refine ⟨by decide, by decide, by decide⟩

/-- C1 (amended): `can_change_status(actor, task, new_status)` is true
iff the actor is a MANAGER, or is ACTIVE and the task's assignee, or is
ACTIVE and the task's owner while the task has no assignee; and for an
owner of an *assigned* task who is not that assignee, the service's
`change_status` fails with the permission condition. -/
theorem can_change_status_characterization :
    (∀ (actor : User) (task : Task) (target : TaskStatus),
      can_change_status actor task target = true ↔
        (actor.role = Role.MANAGER ∨
          (actor.status = Status.ACTIVE ∧
            (task.assignee_id = some actor.id ∨
              (task.assignee_id = none ∧ actor.id = task.owner_id))))) ∧
    (∀ (st : ServiceState) (aid tid ns : String) (actor : User) (task : Task)
      (target : TaskStatus),
      getUser st aid = some actor → getTask st tid = some task →
      resolveTaskStatus ns = some target →
      actor.role ≠ Role.MANAGER → actor.id = task.owner_id →
      task.assignee_id ≠ some actor.id → task.assignee_id ≠ none →
      change_status st aid tid ns
        = (Except.error (Err.permission ("User cannot change status for this task")), st)) := by
  constructor
  · intro actor task target
    simp [can_change_status, Bool.or_eq_true, Bool.and_eq_true, decide_eq_true_eq]
  · intro st aid tid ns actor task target hU hT hres hrole hown hassg hsome
    have hpol : can_change_status actor task target = false := by
      simp [can_change_status, hrole, hassg, hsome]
    simp [change_status, hU, hT, hres, hpol]

/-- Witness for the amended C1: the characterization at the manager and
the fixture owner, and the service denial for the owner of the assigned
fixture task. -/
theorem can_change_status_characterization_witness :
    (can_change_status ownerUser taskAssigned TaskStatus.DONE = true ↔
      (ownerUser.role = Role.MANAGER ∨
        (ownerUser.status = Status.ACTIVE ∧
          (taskAssigned.assignee_id = some ownerUser.id ∨
            (taskAssigned.assignee_id = none ∧ ownerUser.id = taskAssigned.owner_id))))) ∧
    change_status stAssigned ("o1") ("t1") ("DONE")
      = (Except.error (Err.permission ("User cannot change status for this task")), stAssigned) :=
  ⟨can_change_status_characterization.1 ownerUser taskAssigned TaskStatus.DONE,
   can_change_status_characterization.2 stAssigned ("o1") ("t1") ("DONE") ownerUser taskAssigned
     TaskStatus.DONE (by decide) (by decide) (by decide) (by decide) (by decide)
     (by decide) (by decide)⟩

/-- C6: in `assign_task`, a missing task is detected first and reported
as "Task not found" regardless of actor or assignee; when the task
exists but the actor or the assignee is absent, the failure is the
single "Actor or assignee not found" condition; either failure leaves
the state unchanged. -/
theorem assign_task_not_found_order :
    ∀ (st : ServiceState) (aid tid sid : String),
      (getTask st tid = none →
        assign_task st aid tid sid
          = (Except.error (Err.validation ("Task not found")), st)) ∧
      (∀ task, getTask st tid = some task →
        (getUser st aid = none ∨ getUser st sid = none) →
        assign_task st aid tid sid
          = (Except.error (Err.validation ("Actor or assignee not found")), st)) := by
  intro st aid tid sid
  constructor
  · intro hT
    simp [assign_task, hT]
  · intro task hT habs
    rcases habs with h | h
    · simp [assign_task, hT, h]
    · cases hu : getUser st aid <;> simp [assign_task, hT, hu, h]

/-- Witness for C6: on the fixture state, assigning on a missing task id
reports "Task not found"; assigning the fixture task with a ghost actor
reports "Actor or assignee not found". -/
theorem assign_task_not_found_order_witness :
    assign_task stUnassigned ("ghost") ("nope") ("d1")
      = (Except.error (Err.validation ("Task not found")), stUnassigned) ∧
    assign_task stUnassigned ("ghost") ("t1") ("nobody")
      = (Except.error (Err.validation ("Actor or assignee not found")), stUnassigned) :=
  ⟨(assign_task_not_found_order stUnassigned ("ghost") ("nope") ("d1")).1 (by decide),
   (assign_task_not_found_order stUnassigned ("ghost") ("t1") ("nobody")).2 taskUnassigned
     (by decide) (Or.inl (by decide))⟩

/-- C10: every task/event route rejects a request whose `X-Actor-Id`
header is absent or empty with the validation condition
"Missing X-Actor-Id header" before the service runs, leaving the state
(tasks and event log) unchanged; the error handler maps it to HTTP
400. -/
theorem routes_require_actor_header :
    ∀ (st : ServiceState) (hdr : Option String), (hdr = none ∨ hdr = some ("")) →
      ∀ (tid : String) (b1 b2 b3 : Option String),
      route_create_task st hdr b1 b2 b3
        = (Except.error (Err.validation ("Missing X-Actor-Id header")), st) ∧
      route_update_task st hdr tid b1 b2 b3
        = (Except.error (Err.validation ("Missing X-Actor-Id header")), st) ∧
      route_assign_task st hdr tid b1
        = (Except.error (Err.validation ("Missing X-Actor-Id header")), st) ∧
      route_change_status st hdr tid b1
        = (Except.error (Err.validation ("Missing X-Actor-Id header")), st) ∧
      route_list_tasks st hdr b1 b2
        = (Except.error (Err.validation ("Missing X-Actor-Id header")), st) ∧
      route_delete_task st hdr tid
        = (Except.error (Err.validation ("Missing X-Actor-Id header")), st) ∧
      route_get_events st hdr tid
        = (Except.error (Err.validation ("Missing X-Actor-Id header")), st) ∧
      errorResponse (Err.validation ("Missing X-Actor-Id header"))
        = { statusCode := 400, message := "Missing X-Actor-Id header" } := by
  intro st hdr hhdr tid b1 b2 b3
  have hh : actorIdFromHeader hdr
      = Except.error (Err.validation ("Missing X-Actor-Id header")) := by
    rcases hhdr with h | h <;> simp [actorIdFromHeader, h]
  refine ⟨?_, ?_, ?_, ?_, ?_, ?_, ?_, rfl⟩ <;>
    simp [route_create_task, route_update_task, route_assign_task, route_change_status,
      route_list_tasks, route_delete_task, route_get_events, hh]

/-- Witness for C10: the absent-header case on the fixture state. -/
theorem routes_require_actor_header_witness :
    route_create_task stUnassigned none none none none
      = (Except.error (Err.validation ("Missing X-Actor-Id header")), stUnassigned) ∧
    route_get_events stUnassigned none ("t1")
      = (Except.error (Err.validation ("Missing X-Actor-Id header")), stUnassigned) :=
  ⟨(routes_require_actor_header stUnassigned none (Or.inl rfl) ("t1") none none none).1,
   (routes_require_actor_header stUnassigned none (Or.inl rfl) ("t1") none none
     none).2.2.2.2.2.2.1⟩

/-- C2 counterexample: `create_task` with an actor id that resolves to
no user fails with the permission condition "User cannot create tasks"
— not a not-found validation condition — exactly as
`test_create_task_actor_missing_forbidden` pins. -/
theorem create_task_missing_actor_permission :
    (create_task (initState [] []) ("ghost") ("T") ("") ("NORMAL")).1
      = Except.error (Err.permission ("User cannot create tasks")) ∧
    Err.isValidation (Err.permission ("User cannot create tasks")) = false := by
  exact ⟨by decide, by decide⟩

/-- C2 (amended): every Task Service operation except `create_task`
fails with a not-found validation condition when the supplied actor id
does not resolve; `create_task` instead fails with the permission
condition "User cannot create tasks". -/
theorem missing_actor_not_found_except_create :
    ∀ (st : ServiceState) (aid : String), getUser st aid = none →
      ∀ (tid sid ns ti d : String) (ot od op sf pf : Option String),
      failsWithValidation (assign_task st aid tid sid).1 = true ∧
      failsWithValidation (change_status st aid tid ns).1 = true ∧
      failsWithValidation (update_task st aid tid ot od op).1 = true ∧
      failsWithValidation (delete_task st aid tid).1 = true ∧
      failsWithValidation (list_tasks st aid sf pf).1 = true ∧
      failsWithValidation (get_events st aid tid).1 = true ∧
      (ti ≠ "" →
        (create_task st aid ti d ("NORMAL")).1
          = Except.error (Err.permission ("User cannot create tasks"))) := by
  intro st aid h tid sid ns ti d ot od op sf pf
  have hp : resolvePriority ("NORMAL") = some Priority.NORMAL := by decide
  refine ⟨?_, ?_, ?_, ?_, ?_, ?_, ?_⟩
  · cases hT : getTask st tid <;>
      simp [assign_task, hT, h, failsWithValidation, Err.isValidation]
  · cases hT : getTask st tid <;>
      simp [change_status, hT, h, failsWithValidation, Err.isValidation]
  · simp [update_task, h, failsWithValidation, Err.isValidation]
  · simp [delete_task, h, failsWithValidation, Err.isValidation]
  · simp [list_tasks, h, failsWithValidation, Err.isValidation]
  · simp [get_events, h, failsWithValidation, Err.isValidation]
  · intro hti
    simp [create_task, hti, hp, h]

/-- Witness for the amended C2: the ghost actor on the empty state. -/
theorem missing_actor_not_found_except_create_witness :
    failsWithValidation (assign_task (initState [] []) ("ghost") ("t") ("x")).1 = true ∧
    failsWithValidation (list_tasks (initState [] []) ("ghost") none none).1 = true ∧
    (create_task (initState [] []) ("ghost") ("T") ("") ("NORMAL")).1
      = Except.error (Err.permission ("User cannot create tasks")) := by
  have h := missing_actor_not_found_except_create (initState [] []) ("ghost") (by decide)
    ("t") ("x") ("NEW") ("T") ("") none none none none none
  exact ⟨h.1, h.2.2.2.2.1, h.2.2.2.2.2.2 (by decide)⟩

/-- C3: the non-manager transition graph is exactly
NEW → IN_PROGRESS and IN_PROGRESS → DONE; for a policy-permitted
non-manager any other requested transition fails with the
invalid-transition validation error and leaves the state (hence the
task's status) unchanged; a legal transition succeeds; and a manager
may set any resolvable target status from any current status. -/
theorem change_status_transition_graph :
    (∀ (c t : TaskStatus), allowed_transition c t = true ↔
      ((c = TaskStatus.NEW ∧ t = TaskStatus.IN_PROGRESS) ∨
        (c = TaskStatus.IN_PROGRESS ∧ t = TaskStatus.DONE))) ∧
    (∀ (st : ServiceState) (aid tid ns : String) (actor : User) (task : Task)
      (target : TaskStatus),
      getUser st aid = some actor → getTask st tid = some task →
      resolveTaskStatus ns = some target →
      can_change_status actor task target = true →
      ((actor.role ≠ Role.MANAGER → allowed_transition task.status target = false →
        change_status st aid tid ns
          = (Except.error (Err.validation ("Invalid transition")), st)) ∧
       (allowed_transition task.status target = true →
        (change_status st aid tid ns).1 = Except.ok { task with status := target }) ∧
       (actor.role = Role.MANAGER →
        (change_status st aid tid ns).1 = Except.ok { task with status := target }))) := by
  constructor
  · intro c t
    cases c <;> cases t <;> decide
  · intro st aid tid ns actor task target hU hT hres hpol
    refine ⟨?_, ?_, ?_⟩
    · intro hrole htr
      simp [change_status, hU, hT, hres, hpol, hrole, htr]
    · intro htr
      simp [change_status, hU, hT, hres, hpol, htr]
    · intro hrole
      simp [change_status, hU, hT, hres, hpol, hrole]

/-- Witness for C3: on the assigned fixture task (IN_PROGRESS, assignee
`d1`), the assignee's IN_PROGRESS → NEW request fails as an invalid
transition, IN_PROGRESS → DONE succeeds, and the manager cancels from
IN_PROGRESS. -/
theorem change_status_transition_graph_witness :
    (allowed_transition TaskStatus.NEW TaskStatus.IN_PROGRESS = true ↔
      ((TaskStatus.NEW = TaskStatus.NEW ∧ TaskStatus.IN_PROGRESS = TaskStatus.IN_PROGRESS) ∨
        (TaskStatus.NEW = TaskStatus.IN_PROGRESS ∧ TaskStatus.IN_PROGRESS = TaskStatus.DONE))) ∧
    change_status stAssigned ("d1") ("t1") ("NEW")
      = (Except.error (Err.validation ("Invalid transition")), stAssigned) ∧
    (change_status stAssigned ("d1") ("t1") ("DONE")).1
      = Except.ok { taskAssigned with status := TaskStatus.DONE } ∧
    (change_status stAssigned ("m1") ("t1") ("CANCELED")).1
      = Except.ok { taskAssigned with status := TaskStatus.CANCELED } := by
  refine ⟨change_status_transition_graph.1 TaskStatus.NEW TaskStatus.IN_PROGRESS, ?_, ?_, ?_⟩
  · exact (change_status_transition_graph.2 stAssigned ("d1") ("t1") ("NEW") devUser
      taskAssigned TaskStatus.NEW (by decide) (by decide) (by decide) (by decide)).1
      (by decide) (by decide)
  · exact (change_status_transition_graph.2 stAssigned ("d1") ("t1") ("DONE") devUser
      taskAssigned TaskStatus.DONE (by decide) (by decide) (by decide) (by decide)).2.1
      (by decide)
  · exact (change_status_transition_graph.2 stAssigned ("m1") ("t1") ("CANCELED") mgrUser
      taskAssigned TaskStatus.CANCELED (by decide) (by decide) (by decide) (by decide)).2.2
      (by decide)

/-- Replacing the task stored under an id makes a subsequent lookup of
that id return the replacement (the shape of `TaskRepo.update` followed
by `TaskRepo.get`). -/
theorem find_replace (l : List Task) (tid : String) (task t2 : Task)
    (h : l.find? (fun t => decide (t.id = tid)) = some task) (hid : t2.id = tid) :
    (l.map (fun t => if t.id = task.id then t2 else t)).find?
      (fun t => decide (t.id = tid)) = some t2 := by
  have hpt := List.find?_some h
  simp only [decide_eq_true_eq] at hpt
  have htid : task.id = tid := hpt
  induction l with
  | nil => simp at h
  | cons a as ih =>
    by_cases hc : a.id = tid
    · rw [List.find?_cons_of_pos _ (by simp [hc])] at h
      have ha : a = task := by injection h
      subst ha
      simp only [List.map_cons, if_pos rfl]
      exact List.find?_cons_of_pos _ (by simp [hid])
    · have ha : a.id ≠ task.id := by rw [htid]; exact hc
      rw [List.find?_cons_of_neg _ (by simp [hc])] at h
      simp only [List.map_cons, if_neg ha]
      rw [List.find?_cons_of_neg _ (by simp [hc])]
      exact ih h

/-- Deleting a task that is already soft-deleted is a no-op: the task
and the state come back unchanged. -/
theorem delete_task_deleted_noop (st : ServiceState) (aid tid : String) (actor : User)
    (task : Task) (hU : getUser st aid = some actor) (hT : getTask st tid = some task)
    (hcd : can_delete actor task = true) (hdel : task.is_deleted = true) :
    delete_task st aid tid = (Except.ok task, st) := by
  simp [delete_task, hU, hT, hcd, hdel]

/-- C4: `delete_task` is idempotent.  For a permitted actor: deleting an
already-deleted task returns the task and the state unchanged (no
additional DELETED event); deleting a live task returns it with
`is_deleted := true`, appends exactly one DELETED event, does not touch
the `status` field, and a repeated delete in the resulting state is a
no-op returning that state unchanged. -/
theorem delete_task_idempotent :
    ∀ (st : ServiceState) (aid tid : String) (actor : User) (task : Task),
      getUser st aid = some actor → getTask st tid = some task →
      can_delete actor task = true →
      ((task.is_deleted = true → delete_task st aid tid = (Except.ok task, st)) ∧
       (task.is_deleted = false →
         delete_task st aid tid
           = (Except.ok ({ task with is_deleted := true }), (delete_task st aid tid).2) ∧
         countDeleted (delete_task st aid tid).2 tid = countDeleted st tid + 1 ∧
         ({ task with is_deleted := true } : Task).status = task.status ∧
         delete_task (delete_task st aid tid).2 aid tid
           = (Except.ok ({ task with is_deleted := true }), (delete_task st aid tid).2))) := by
  intro st aid tid actor task hU hT hcd
  have hpt := List.find?_some hT
  simp only [decide_eq_true_eq] at hpt
  have htid : task.id = tid := hpt
  constructor
  · intro hdel
    exact delete_task_deleted_noop st aid tid actor task hU hT hcd hdel
  · intro hdel
    have hS : (delete_task st aid tid).2
        = { st with
            tasks := st.tasks.map
              (fun t => if t.id = task.id then ({ task with is_deleted := true }) else t),
            nextId := st.nextId + 1,
            events := st.events ++
              [{ id := "id-" ++ toString (st.nextId + 1), task_id := tid,
                 timestamp := st.now, type := .DELETED, meta := [] }] } := by
      simp [delete_task, hU, hT, hcd, hdel, updateTask, appendEvent, freshId]
    have hU2 : getUser (delete_task st aid tid).2 aid = some actor := by
      rw [hS]
      exact hU
    have hT2 : getTask (delete_task st aid tid).2 tid
        = some ({ task with is_deleted := true }) := by
      rw [hS]
      exact find_replace st.tasks tid task _ hT htid
    have hcd2 : can_delete actor ({ task with is_deleted := true }) = true := hcd
    refine ⟨?_, ?_, rfl, ?_⟩
    · simp [delete_task, hU, hT, hcd, hdel]
    · rw [hS]
      simp [countDeleted, List.filter_append, htid]
    · exact delete_task_deleted_noop (delete_task st aid tid).2 aid tid actor
        ({ task with is_deleted := true }) hU2 hT2 hcd2 rfl

/-- Witness for C4: the manager deletes the unassigned fixture task;
both the live-delete and the repeat-delete conclusions are produced at
that input. -/
theorem delete_task_idempotent_witness :
    delete_task stUnassigned ("m1") ("t1")
      = (Except.ok ({ taskUnassigned with is_deleted := true }),
          (delete_task stUnassigned ("m1") ("t1")).2) ∧
    countDeleted (delete_task stUnassigned ("m1") ("t1")).2 ("t1")
      = countDeleted stUnassigned ("t1") + 1 ∧
    delete_task (delete_task stUnassigned ("m1") ("t1")).2 ("m1") ("t1")
      = (Except.ok ({ taskUnassigned with is_deleted := true }),
          (delete_task stUnassigned ("m1") ("t1")).2) := by
  have h := (delete_task_idempotent stUnassigned ("m1") ("t1") mgrUser taskUnassigned
    (by decide) (by decide) (by decide)).2 (by decide)
  exact ⟨h.1, h.2.1, h.2.2.2⟩

/-- C5: `list_tasks` returns, with the state unchanged, exactly the
tasks visible to the actor — all of them for a manager, otherwise those
where the actor is owner or assignee — restricted by the resolved
status/priority filters as an exact-match conjunction; and `get_events`
fails with a permission condition (state unchanged) whenever the actor
is neither manager, owner, nor assignee of the task. -/
theorem list_visibility_and_events_permission :
    (∀ (st : ServiceState) (aid : String) (actor : User) (sf pf : Option String)
      (osf : Option TaskStatus) (opf : Option Priority),
      getUser st aid = some actor →
      resolveStatusFilter sf = Except.ok osf →
      resolvePriorityFilter pf = Except.ok opf →
      isOkB (list_tasks st aid sf pf).1 = true ∧
      (list_tasks st aid sf pf).2 = st ∧
      (∀ t : Task, okContains (list_tasks st aid sf pf).1 t ↔
        (t ∈ st.tasks ∧
          (actor.role = Role.MANAGER ∨ t.owner_id = actor.id ∨
            t.assignee_id = some actor.id) ∧
          (osf = none ∨ osf = some t.status) ∧
          (opf = none ∨ opf = some t.priority)))) ∧
    (∀ (st : ServiceState) (aid tid : String) (actor : User) (task : Task),
      getUser st aid = some actor → getTask st tid = some task →
      actor.role ≠ Role.MANAGER → task.owner_id ≠ actor.id →
      task.assignee_id ≠ some actor.id →
      failsWithPermission (get_events st aid tid).1 = true ∧
      (get_events st aid tid).2 = st) := by
  constructor
  · intro st aid actor sf pf osf opf hU hsf hpf
    have hlist : list_tasks st aid sf pf
        = (Except.ok ((st.tasks.filter (visibleTo actor)).filter (matchesFilters osf opf)),
            st) := by
      simp [list_tasks, hU, hsf, hpf]
    refine ⟨by rw [hlist]; rfl, by rw [hlist], ?_⟩
    intro t
    rw [hlist]
    simp only [okContains]
    rcases osf with _ | s <;> rcases opf with _ | p <;>
      simp [List.mem_filter, visibleTo, matchesFilters, and_assoc,
        decide_eq_true_eq] <;>
      aesop
  · intro st aid tid actor task hU hT hrole hown hassg
    have hvis : visibleTo actor task = false := by
      simp [visibleTo, hrole, hown, hassg]
    constructor <;>
      simp [get_events, hU, hT, hvis, failsWithPermission, Err.isPermission]

/-- Witness for C5: the assignee `d1` listing in the assigned fixture
state sees the fixture task; the same `d1`, unrelated to the unassigned
fixture task owned by `o1`, is denied its events. -/
theorem list_visibility_and_events_permission_witness :
    (isOkB (list_tasks stAssigned ("d1") none none).1 = true ∧
      (list_tasks stAssigned ("d1") none none).2 = stAssigned ∧
      (okContains (list_tasks stAssigned ("d1") none none).1 taskAssigned ↔
        (taskAssigned ∈ stAssigned.tasks ∧
          (devUser.role = Role.MANAGER ∨ taskAssigned.owner_id = devUser.id ∨
            taskAssigned.assignee_id = some devUser.id) ∧
          ((none : Option TaskStatus) = none ∨ (none : Option TaskStatus) = some taskAssigned.status) ∧
          ((none : Option Priority) = none ∨ (none : Option Priority) = some taskAssigned.priority)))) ∧
    failsWithPermission (get_events stUnassigned ("d1") ("t1")).1 = true := by
  have h1 := list_visibility_and_events_permission.1 stAssigned ("d1") devUser none none
    none none (by decide) (by decide) (by decide)
  have h2 := list_visibility_and_events_permission.2 stUnassigned ("d1") ("t1") devUser
    taskUnassigned (by decide) (by decide) (by decide) (by decide) (by decide)
  exact ⟨⟨h1.1, h1.2.1, h1.2.2 taskAssigned⟩, h2.1⟩

/-- C7: for a permitted actor, an `update_task` whose supplied fields
all coincide with the task's current values (including a call supplying
no fields) returns the task unchanged and leaves the state — hence the
event log — untouched. -/
theorem update_task_noop_no_event :
    ∀ (st : ServiceState) (aid tid : String) (actor : User) (task : Task)
      (ot od op : Option String),
      getUser st aid = some actor → getTask st tid = some task →
      can_update actor task = true →
      (match ot with | none => True | some t => t = task.title ∧ task.title ≠ "") →
      (match od with | none => True | some d => d = task.description) →
      (match op with | none => True | some p => resolvePriority p = some task.priority) →
      update_task st aid tid ot od op = (Except.ok task, st) := by
  intro st aid tid actor task ot od op hU hT hcu hti hd hp
  rcases ot with _ | t0 <;> rcases od with _ | d0 <;> rcases op with _ | p0 <;>
    simp only at hti hd hp
  · simp [update_task, resolvePriorityField, hU, hT, hcu]
  · simp [update_task, resolvePriorityField, hU, hT, hcu, hp]
  · subst hd
    simp [update_task, resolvePriorityField, hU, hT, hcu]
  · subst hd
    simp [update_task, resolvePriorityField, hU, hT, hcu, hp]
  · obtain ⟨hte, htn⟩ := hti
    subst hte
    simp [update_task, resolvePriorityField, hU, hT, hcu, htn]
  · obtain ⟨hte, htn⟩ := hti
    subst hte
    simp [update_task, resolvePriorityField, hU, hT, hcu, htn, hp]
  · obtain ⟨hte, htn⟩ := hti
    subst hte
    subst hd
    simp [update_task, resolvePriorityField, hU, hT, hcu, htn]
  · obtain ⟨hte, htn⟩ := hti
    subst hte
    subst hd
    simp [update_task, resolvePriorityField, hU, hT, hcu, htn, hp]

/-- Witness for C7: the owner re-supplying the fixture task's current
title, description, and priority gets the task back with no event
appended; so does a call supplying no fields. -/
theorem update_task_noop_no_event_witness :
    update_task stUnassigned ("o1") ("t1") (some ("T")) (some ("")) (some ("normal"))
        = (Except.ok taskUnassigned, stUnassigned) ∧
    update_task stUnassigned ("o1") ("t1") none none none
        = (Except.ok taskUnassigned, stUnassigned) := by
  constructor
  · exact update_task_noop_no_event stUnassigned ("o1") ("t1") ownerUser taskUnassigned
      (some ("T")) (some ("")) (some ("normal")) (by decide) (by decide) (by decide)
      (by exact ⟨rfl, by decide⟩) (by exact rfl) (by decide)
  · exact update_task_noop_no_event stUnassigned ("o1") ("t1") ownerUser taskUnassigned
      none none none (by decide) (by decide) (by decide) trivial trivial trivial

/-- A failing status-filter resolution yields a classified (validation)
failure. -/
theorem resolveStatusFilter_classified (s : Option String) (e : Err)
    (h : resolveStatusFilter s = Except.error e) : Err.isUnexpected e = false := by
  rcases s with _ | v
  · simp [resolveStatusFilter] at h
  · rcases hv : resolveTaskStatus v with _ | ts <;>
      simp [resolveStatusFilter, hv] at h
    subst h
    rfl

/-- A failing priority-filter resolution yields a classified
(validation) failure. -/
theorem resolvePriorityFilter_classified (s : Option String) (e : Err)
    (h : resolvePriorityFilter s = Except.error e) : Err.isUnexpected e = false := by
  rcases s with _ | v
  · simp [resolvePriorityFilter] at h
  · rcases hv : resolvePriority v with _ | pr <;>
      simp [resolvePriorityFilter, hv] at h
    subst h
    rfl

/-- A failing priority-field resolution yields a classified
(validation) failure. -/
theorem resolvePriorityField_classified (s : Option String) (e : Err)
    (h : resolvePriorityField s = Except.error e) : Err.isUnexpected e = false := by
  rcases s with _ | v
  · simp [resolvePriorityField] at h
  · rcases hv : resolvePriority v with _ | pr <;>
      simp [resolvePriorityField, hv] at h
    subst h
    rfl

/-- C8: every failure surfaced by a core service operation is one of
the two classified kinds — validation/not-found or permission, never
the unexpected kind — and the HTTP error handlers of `src/app/api.py`
map validation to 400 with the failure's message, permission to 403
with the message, and the unexpected kind to an opaque
500 "Internal Server Error" (so it is not converted into either of the
first two). -/
theorem core_failures_classified :
    (∀ m, errorResponse (Err.validation m) = { statusCode := 400, message := m }) ∧
    (∀ m, errorResponse (Err.permission m) = { statusCode := 403, message := m }) ∧
    (∀ m, errorResponse (Err.unexpected m)
      = { statusCode := 500, message := "Internal Server Error" }) ∧
    (∀ (st st2 : ServiceState) (aid ti d p : String) (e : Err),
      create_task st aid ti d p = (Except.error e, st2) → Err.isUnexpected e = false) ∧
    (∀ (st st2 : ServiceState) (aid tid sid : String) (e : Err),
      assign_task st aid tid sid = (Except.error e, st2) → Err.isUnexpected e = false) ∧
    (∀ (st st2 : ServiceState) (aid tid ns : String) (e : Err),
      change_status st aid tid ns = (Except.error e, st2) → Err.isUnexpected e = false) ∧
    (∀ (st st2 : ServiceState) (aid tid : String) (ot od op : Option String) (e : Err),
      update_task st aid tid ot od op = (Except.error e, st2) →
        Err.isUnexpected e = false) ∧
    (∀ (st st2 : ServiceState) (aid tid : String) (e : Err),
      delete_task st aid tid = (Except.error e, st2) → Err.isUnexpected e = false) ∧
    (∀ (st st2 : ServiceState) (aid : String) (sf pf : Option String) (e : Err),
      list_tasks st aid sf pf = (Except.error e, st2) → Err.isUnexpected e = false) ∧
    (∀ (st st2 : ServiceState) (aid tid : String) (e : Err),
      get_events st aid tid = (Except.error e, st2) → Err.isUnexpected e = false) := by
  refine ⟨fun m => rfl, fun m => rfl, fun m => rfl, ?_, ?_, ?_, ?_, ?_, ?_, ?_⟩
  · intro st st2 aid ti d p e h
    simp only [create_task] at h
    repeat' split at h
    all_goals simp only [Prod.mk.injEq] at h
    all_goals
      first
      | (obtain ⟨he, h2⟩ := h
         injection he with he2
         subst he2
         rfl)
      | simp at h
  · intro st st2 aid tid sid e h
    simp only [assign_task] at h
    repeat' split at h
    all_goals simp only [Prod.mk.injEq] at h
    all_goals
      first
      | (obtain ⟨he, h2⟩ := h
         injection he with he2
         subst he2
         rfl)
      | simp at h
  · intro st st2 aid tid ns e h
    simp only [change_status] at h
    repeat' split at h
    all_goals simp only [Prod.mk.injEq] at h
    all_goals
      first
      | (obtain ⟨he, h2⟩ := h
         injection he with he2
         subst he2
         rfl)
      | simp at h
  · intro st st2 aid tid ot od op e h
    rcases hpf : resolvePriorityField op with epf | opf <;>
      simp only [update_task, hpf] at h <;>
      repeat' split at h
    all_goals simp only [Prod.mk.injEq] at h
    all_goals
      first
      | (obtain ⟨he, h2⟩ := h
         injection he with he2
         subst he2
         first
         | rfl
         | exact resolvePriorityField_classified op _ hpf)
      | simp at h
  · intro st st2 aid tid e h
    simp only [delete_task] at h
    repeat' split at h
    all_goals simp only [Prod.mk.injEq] at h
    all_goals
      first
      | (obtain ⟨he, h2⟩ := h
         injection he with he2
         subst he2
         rfl)
      | simp at h
  · intro st st2 aid sf pf e h
    rcases hsf : resolveStatusFilter sf with esf | osf <;>
      rcases hpf : resolvePriorityFilter pf with epf | opf <;>
      simp only [list_tasks, hsf, hpf] at h <;>
      repeat' split at h
    all_goals simp only [Prod.mk.injEq] at h
    all_goals
      first
      | (obtain ⟨he, h2⟩ := h
         injection he with he2
         subst he2
         first
         | rfl
         | exact resolveStatusFilter_classified sf _ hsf
         | exact resolvePriorityFilter_classified pf _ hpf)
      | simp at h
  · intro st st2 aid tid e h
    simp only [get_events] at h
    repeat' split at h
    all_goals simp only [Prod.mk.injEq] at h
    all_goals
      first
      | (obtain ⟨he, h2⟩ := h
         injection he with he2
         subst he2
         rfl)
      | simp at h

/-- Witness for C8: a concrete validation failure (missing task on
delete) and a concrete permission failure (unrelated user reading
events) are both classified, hence not the unexpected kind. -/
theorem core_failures_classified_witness :
    errorResponse (Err.validation ("Task not found"))
      = { statusCode := 400, message := "Task not found" } ∧
    errorResponse (Err.unexpected ("boom"))
      = { statusCode := 500, message := "Internal Server Error" } ∧
    Err.isUnexpected (Err.validation ("Actor or task not found")) = false := by
  refine ⟨core_failures_classified.1 ("Task not found"),
    core_failures_classified.2.2.1 ("boom"), ?_⟩
  exact core_failures_classified.2.2.2.2.2.2.2.2.2 (initState [] [])
    (initState [] []) ("ghost") ("nope") (Err.validation ("Actor or task not found"))
    (by decide)

/-- C9 counterexample: an unresolvable `role` supplied to the
user-creation boundary (`create_user` in `src/app/api.py`) is rejected,
but with the validation error "Missing field: 'SUPERADMIN'" — the
re-raised `KeyError` — not with a corresponding Unknown-* error. -/
theorem create_user_unknown_role_message :
    parse_user (some ("u9")) (some ("u9@example.com")) (some ("SUPERADMIN")) none
      = Except.error (Err.validation ("Missing field: 'SUPERADMIN'")) ∧
    Err.validation ("Missing field: 'SUPERADMIN'")
      ≠ Err.validation ("Unknown role") := by
  exact ⟨by decide, by decide⟩

/-- C9 (amended): every symbolic input is resolved case-insensitively
against the enumeration's canonical names (resolution succeeds exactly
when the upper-cased input is the canonical name), and every
unresolvable value is rejected with a validation error, never silently
replaced by a default: priority, status, and the two list filters with
their Unknown-* errors, and role/account status at the user-creation
boundary with the re-raised "Missing field: <name>" error. -/
theorem symbolic_resolution_case_insensitive :
    (∀ (s : String) (p : Priority),
      resolvePriority s = some p ↔ upperName s = p.canonicalName) ∧
    (∀ (s : String) (t : TaskStatus),
      resolveTaskStatus s = some t ↔ upperName s = t.canonicalName) ∧
    (∀ (s : String) (r : Role),
      resolveRole s = some r ↔ upperName s = r.canonicalName) ∧
    (∀ (s : String) (a : Status),
      resolveStatus s = some a ↔ upperName s = a.canonicalName) ∧
    (∀ (st : ServiceState) (aid ti d p : String), ti ≠ "" → resolvePriority p = none →
      create_task st aid ti d p
        = (Except.error (Err.validation ("Unknown priority")), st)) ∧
    (∀ (st : ServiceState) (aid tid ns : String) (actor : User) (task : Task),
      getTask st tid = some task → getUser st aid = some actor →
      resolveTaskStatus ns = none →
      change_status st aid tid ns
        = (Except.error (Err.validation ("Unknown status")), st)) ∧
    (∀ (st : ServiceState) (aid s : String) (actor : User) (pf : Option String),
      getUser st aid = some actor → resolveTaskStatus s = none →
      list_tasks st aid (some s) pf
        = (Except.error (Err.validation ("Unknown status filter")), st)) ∧
    (∀ (st : ServiceState) (aid pv : String) (actor : User) (sf : Option String)
      (osf : Option TaskStatus),
      getUser st aid = some actor → resolveStatusFilter sf = Except.ok osf →
      resolvePriority pv = none →
      list_tasks st aid sf (some pv)
        = (Except.error (Err.validation ("Unknown priority filter")), st)) ∧
    (∀ (i e r : String) (os : Option String),
      roleOfName (upperName r) = none →
      parse_user (some i) (some e) (some r) os
        = Except.error (Err.validation ("Missing field: '" ++ upperName r ++ "'"))) ∧
    (∀ (i e a : String),
      statusOfName (upperName a) = none →
      parse_user (some i) (some e) none (some a)
        = Except.error (Err.validation ("Missing field: '" ++ upperName a ++ "'"))) := by
  refine ⟨?_, ?_, ?_, ?_, ?_, ?_, ?_, ?_, ?_, ?_⟩
  · intro s p
    cases p <;> simp only [resolvePriority, priorityOfName, Priority.canonicalName] <;>
      split_ifs <;> simp_all
  · intro s t
    cases t <;> simp only [resolveTaskStatus, taskStatusOfName, TaskStatus.canonicalName] <;>
      split_ifs <;> simp_all
  · intro s r
    cases r <;> simp only [resolveRole, roleOfName, Role.canonicalName] <;>
      split_ifs <;> simp_all
  · intro s a
    cases a <;> simp only [resolveStatus, statusOfName, Status.canonicalName] <;>
      split_ifs <;> simp_all
  · intro st aid ti d p hti hp
    simp [create_task, hti, hp]
  · intro st aid tid ns actor task hT hU hres
    simp [change_status, hT, hU, hres]
  · intro st aid s actor pf hU hres
    simp [list_tasks, hU, resolveStatusFilter, hres]
  · intro st aid pv actor sf osf hU hsf hrp
    simp [list_tasks, hU, hsf, resolvePriorityFilter, hrp]
  · intro i e r os hrole
    simp [parse_user, hrole]
  · intro i e a hstatus
    have hu : roleOfName (upperName ("USER")) = some Role.USER := by decide
    simp [parse_user, hu, hstatus]

/-- Witness for the amended C9: mixed-case "hIgH" resolves to HIGH,
creating with priority "ULTRA" is rejected with Unknown priority,
changing to status "WHAT_IS_THIS" is rejected with Unknown status, and
role "SUPERADMIN" at the user boundary is rejected with the
"Missing field" validation error. -/
theorem symbolic_resolution_case_insensitive_witness :
    (resolvePriority ("hIgH") = some Priority.HIGH ↔
      upperName ("hIgH") = Priority.HIGH.canonicalName) ∧
    create_task (initState [] []) ("u") ("T") ("") ("ULTRA")
      = (Except.error (Err.validation ("Unknown priority")), initState [] []) ∧
    change_status stUnassigned ("o1") ("t1") ("WHAT_IS_THIS")
      = (Except.error (Err.validation ("Unknown status")), stUnassigned) ∧
    parse_user (some ("u9")) (some ("u9@example.com")) (some ("SUPERADMIN")) none
      = Except.error (Err.validation ("Missing field: '" ++ upperName ("SUPERADMIN") ++ "'")) := by
  refine ⟨symbolic_resolution_case_insensitive.1 ("hIgH") Priority.HIGH, ?_, ?_, ?_⟩
  · exact symbolic_resolution_case_insensitive.2.2.2.2.1 (initState [] []) ("u") ("T")
      ("") ("ULTRA") (by decide) (by decide)
  · exact symbolic_resolution_case_insensitive.2.2.2.2.2.1 stUnassigned ("o1") ("t1")
      ("WHAT_IS_THIS") ownerUser taskUnassigned (by decide) (by decide) (by decide)
  · exact symbolic_resolution_case_insensitive.2.2.2.2.2.2.2.2.1 ("u9")
      ("u9@example.com") ("SUPERADMIN") none (by decide)

end TaskMgr
